import Mathlib

/-!
Shallow embedding of the user/tasks CRUD service (`main.py`,
`data/models.py`, `operations/operations_db.py`).

Modelling conventions:
* The persisted state is a `Store`: the two tables (`users`, `tasks` from
  `data/models.py`) as lists in insertion / primary-key order.
* `datetime` values are `Nat` timestamps; where the code calls
  `datetime.utcnow()` the current time is passed in as an explicit `now`
  argument.
* bcrypt (`pwd_context.hash`) is an arbitrary `hash : String → String`
  parameter, so every theorem below holds for every hash function.
* Columns declared `nullable=False` in `data/models.py` (username, email,
  password, title) are plain `String`: a committed row can never hold NULL
  there, so the successful update paths modelled here never assign a null to
  them.  Genuinely nullable columns (`Task.description`, `Task.due_date`)
  are `Option`-valued in the row type.
* Pydantic update payloads are read with `exclude_unset=True`
  (`operations_db.py`): a payload field is `none` when absent from the
  request.  For the nullable Task columns the payload field is
  `Option (Option _)`, where `some none` is an explicit null in the payload.
* SQLAlchemy autoincrement ids are modelled as (max existing id) + 1.
* The UNIQUE constraints on `users.username` and `users.email` are enforced
  by the database at `db.commit()`: an update writing a colliding value to
  one of those columns raises `IntegrityError`, which propagates unhandled
  (HTTP 500) and persists nothing.  `update_user` models this
  (`uniqueConflict`); the other commit sites cannot conflict: inserts run
  only after the handler's username/email checks, task columns carry no
  unique constraint beyond the fresh primary key.
* `HTTPException` is an error value with status code and detail; a handler
  that raises before any write leaves the store unchanged, so mutating
  handlers return the (possibly unchanged) store alongside the `Except`
  result.
-/

/-- Row of the `users` table (`data/models.py`, class `User`). -/
structure User where
  id : Nat
  username : String
  email : String
  password : String
  is_active : Bool
  is_premium : Bool
  created_at : Nat
  updated_at : Nat
  deriving DecidableEq, Repr

namespace Models

/-- Row of the `tasks` table (`data/models.py`, class `Task`); namespaced
because the source name `Task` is taken by the Lean prelude. -/
structure Task where
  id : Nat
  title : String
  description : Option String
  completed : Bool
  priority : Nat
  due_date : Option Nat
  user_id : Nat
  created_at : Nat
  updated_at : Nat
  deriving DecidableEq, Repr

end Models

/-- The relational store: both tables, rows in primary-key order. -/
structure Store where
  users : List User
  tasks : List Models.Task
  deriving DecidableEq, Repr

/-- Pydantic `UserCreate` (= `UserBase` plus `password`). -/
structure UserCreate where
  username : String
  email : String
  is_active : Bool := true
  is_premium : Bool := false
  password : String
  deriving DecidableEq, Repr

/-- Pydantic `UserUpdate`: every field optional; `none` = absent from the
request payload (dropped by `exclude_unset=True`). -/
structure UserUpdate where
  username : Option String := none
  email : Option String := none
  password : Option String := none
  is_active : Option Bool := none
  is_premium : Option Bool := none
  deriving DecidableEq, Repr

/-- Pydantic `TaskUpdate`; for the nullable columns `description` and
`due_date`, `some none` is a field present in the payload with value null. -/
structure TaskUpdate where
  title : Option String := none
  description : Option (Option String) := none
  completed : Option Bool := none
  priority : Option Nat := none
  due_date : Option (Option Nat) := none
  deriving DecidableEq, Repr

/-- Pydantic `TaskCreate` (= `TaskBase`), with the schema defaults. -/
structure TaskCreate where
  title : String
  description : Option String := none
  completed : Bool := false
  priority : Nat := 1
  due_date : Option Nat := none
  deriving DecidableEq, Repr

/-- Pydantic `UserResponse`: the response schema has no password field. -/
structure UserResponse where
  username : String
  email : String
  is_active : Bool
  is_premium : Bool
  id : Nat
  created_at : Nat
  updated_at : Nat
  deriving DecidableEq, Repr

/-- Pydantic `TaskResponse`. -/
structure TaskResponse where
  title : String
  description : Option String
  completed : Bool
  priority : Nat
  due_date : Option Nat
  id : Nat
  user_id : Nat
  created_at : Nat
  updated_at : Nat
  deriving DecidableEq, Repr

/-- Pydantic `UserWithTasks`: `UserResponse` plus the owned tasks. -/
structure UserWithTasks where
  username : String
  email : String
  is_active : Bool
  is_premium : Bool
  id : Nat
  created_at : Nat
  updated_at : Nat
  tasks : List TaskResponse
  deriving DecidableEq, Repr

/-- FastAPI `HTTPException`, reduced to the data the handlers put in it. -/
structure HTTPError where
  status_code : Nat
  detail : String
  deriving DecidableEq, Repr

/-- Serialization of a `User` row through `response_model=UserResponse`:
the password column is dropped entirely. -/
def toUserResponse (u : User) : UserResponse :=
  ⟨u.username, u.email, u.is_active, u.is_premium, u.id, u.created_at, u.updated_at⟩

/-- Serialization of a `Task` row through `response_model=TaskResponse`. -/
def toTaskResponse (t : Models.Task) : TaskResponse :=
  ⟨t.title, t.description, t.completed, t.priority, t.due_date, t.id, t.user_id,
    t.created_at, t.updated_at⟩

/-- Serialization through `response_model=UserWithTasks`: the `tasks`
relationship collects the rows whose `user_id` is the user's id. -/
def toUserWithTasks (st : Store) (u : User) : UserWithTasks :=
  ⟨u.username, u.email, u.is_active, u.is_premium, u.id, u.created_at, u.updated_at,
    (st.tasks.filter (fun t => t.user_id == u.id)).map toTaskResponse⟩

/-- Truthiness of a Python `Optional[str]`: `None` and `""` are falsy. -/
def truthyStr : Option String → Bool
  | none => false
  | some s => s != ""

namespace Ops

/-- Autoincrement primary key for `users`. -/
def nextUserId (st : Store) : Nat :=
  (st.users.foldr (fun u m => max u.id m) 0) + 1

/-- `operations_db.get_user`. -/
def get_user (st : Store) (user_id : Nat) : Option User :=
  st.users.find? (fun u => u.id == user_id)

/-- `operations_db.get_user_by_username`. -/
def get_user_by_username (st : Store) (username : String) : Option User :=
  st.users.find? (fun u => u.username == username)

/-- `operations_db.get_user_by_email`. -/
def get_user_by_email (st : Store) (email : String) : Option User :=
  st.users.find? (fun u => u.email == email)

/-- `operations_db.get_users`: `offset(skip).limit(limit)`. -/
def get_users (st : Store) (skip limit : Nat) : List User :=
  (st.users.drop skip).take limit

/-- `operations_db.get_active_users`. -/
def get_active_users (st : Store) (skip limit : Nat) : List User :=
  ((st.users.filter (fun u => u.is_active)).drop skip).take limit

/-- `operations_db.get_premium_users`. -/
def get_premium_users (st : Store) (skip limit : Nat) : List User :=
  ((st.users.filter (fun u => u.is_premium)).drop skip).take limit

/-- `operations_db.create_user`: hashes the password, inserts the row.  Its
commit cannot violate a UNIQUE constraint when reached from the handler:
`main.create_user` has just checked that no row holds the username or the
email. -/
def create_user (hash : String → String) (st : Store) (user_data : UserCreate)
    (now : Nat) : User × Store :=
  let db_user : User :=
    { id := nextUserId st
      username := user_data.username
      email := user_data.email
      password := hash user_data.password
      is_active := user_data.is_active
      is_premium := user_data.is_premium
      created_at := now
      updated_at := now }
  (db_user, { st with users := st.users ++ [db_user] })

/-- Field-by-field application of `update_data.items()` in
`operations_db.update_user`: absent fields (`none`) keep the stored value;
the password is hashed only when present and truthy (Python
`if "password" in update_data and update_data["password"]`), so a present
empty string is stored verbatim; `updated_at` is set to now. -/
def applyUserUpdate (hash : String → String) (u : User) (d : UserUpdate)
    (now : Nat) : User :=
  { u with
    username := d.username.getD u.username
    email := d.email.getD u.email
    password :=
      match d.password with
      | some p => if p != "" then hash p else p
      | none => u.password
    is_active := d.is_active.getD u.is_active
    is_premium := d.is_premium.getD u.is_premium
    updated_at := now }

/-- Commit-time enforcement of the UNIQUE constraints on `users.username`
and `users.email` (`data/models.py`): `db.commit()` in
`operations_db.update_user` raises `IntegrityError` when a modified
username or email column collides with a different live row.  A column that
is absent from the payload or re-supplied with its current value is not
written by the UPDATE, so it cannot conflict. -/
def uniqueConflict (st : Store) (user_id : Nat) (db_user : User)
    (user_data : UserUpdate) : Bool :=
  (match user_data.username with
   | some s => s != db_user.username &&
       st.users.any (fun v => v.id != user_id && v.username == s)
   | none => false) ||
  (match user_data.email with
   | some s => s != db_user.email &&
       st.users.any (fun v => v.id != user_id && v.email == s)
   | none => false)

/-- `operations_db.update_user`: applies the payload and commits.  The
commit enforces the UNIQUE constraints: on a conflict the `IntegrityError`
propagates (`Except.error`) and nothing is persisted; otherwise the row
(or `none` when the id is unknown) and the new store are returned. -/
def update_user (hash : String → String) (st : Store) (user_id : Nat)
    (user_data : UserUpdate) (now : Nat) : Except String (Option User × Store) :=
  match get_user st user_id with
  | none => .ok (none, st)
  | some db_user =>
    if uniqueConflict st user_id db_user user_data then
      .error "IntegrityError"
    else
      let u := applyUserUpdate hash db_user user_data now
      .ok (some u,
        { st with users := st.users.map (fun v => if v.id == user_id then u else v) })

/-- `operations_db.delete_user`.  `db.delete(db_user)` triggers the
relationship `cascade="all, delete-orphan"` declared on `User.tasks` in
`data/models.py`, removing every task whose `user_id` is the user's id. -/
def delete_user (st : Store) (user_id : Nat) : Bool × Store :=
  match get_user st user_id with
  | none => (false, st)
  | some _ =>
    (true,
      { users := st.users.filter (fun u => u.id != user_id)
        tasks := st.tasks.filter (fun t => t.user_id != user_id) })

/-- Autoincrement primary key for `tasks`. -/
def nextTaskId (st : Store) : Nat :=
  (st.tasks.foldr (fun t m => max t.id m) 0) + 1

/-- `operations_db.create_task`: builds the row from the payload plus the
owning `user_id` and inserts it.  No unique constraint besides the fresh
primary key applies, so the commit succeeds. -/
def create_task (st : Store) (task_data : TaskCreate) (user_id : Nat)
    (now : Nat) : Models.Task × Store :=
  let db_task : Models.Task :=
    { id := nextTaskId st
      title := task_data.title
      description := task_data.description
      completed := task_data.completed
      priority := task_data.priority
      due_date := task_data.due_date
      user_id := user_id
      created_at := now
      updated_at := now }
  (db_task, { st with tasks := st.tasks ++ [db_task] })

/-- `operations_db.get_task`. -/
def get_task (st : Store) (task_id : Nat) : Option Models.Task :=
  st.tasks.find? (fun t => t.id == task_id)

/-- `operations_db.get_tasks`. -/
def get_tasks (st : Store) (skip limit : Nat) : List Models.Task :=
  (st.tasks.drop skip).take limit

/-- `operations_db.get_user_tasks`. -/
def get_user_tasks (st : Store) (user_id : Nat) (skip limit : Nat) : List Models.Task :=
  ((st.tasks.filter (fun t => t.user_id == user_id)).drop skip).take limit

/-- Field-by-field application of `update_data.items()` in
`operations_db.update_task`: absent fields keep the stored value; for the
nullable columns a present null (`some none`) clears the column. -/
def applyTaskUpdate (t : Models.Task) (d : TaskUpdate) (now : Nat) : Models.Task :=
  { t with
    title := d.title.getD t.title
    description :=
      match d.description with
      | some v => v
      | none => t.description
    completed := d.completed.getD t.completed
    priority := d.priority.getD t.priority
    due_date :=
      match d.due_date with
      | some v => v
      | none => t.due_date
    updated_at := now }

/-- `operations_db.update_task`. -/
def update_task (st : Store) (task_id : Nat) (task_data : TaskUpdate)
    (now : Nat) : Option Models.Task × Store :=
  match get_task st task_id with
  | none => (none, st)
  | some db_task =>
    let t := applyTaskUpdate db_task task_data now
    (some t,
      { st with tasks := st.tasks.map (fun v => if v.id == task_id then t else v) })

/-- `operations_db.delete_task`. -/
def delete_task (st : Store) (task_id : Nat) : Bool × Store :=
  match get_task st task_id with
  | none => (false, st)
  | some _ =>
    (true, { st with tasks := st.tasks.filter (fun t => t.id != task_id) })

end Ops

namespace Api

/-- `main.create_user` (`POST /users/`): username check, then email check,
then insert; a raise leaves the store unchanged. -/
def create_user (hash : String → String) (st : Store) (user : UserCreate)
    (now : Nat) : Except HTTPError UserResponse × Store :=
  if (Ops.get_user_by_username st user.username).isSome then
    (.error ⟨400, "Username already registered"⟩, st)
  else if (Ops.get_user_by_email st user.email).isSome then
    (.error ⟨400, "Email already registered"⟩, st)
  else
    let (u, st') := Ops.create_user hash st user now
    (.ok (toUserResponse u), st')

/-- `main.read_users` (`GET /users/`): `active is True` picks the active
filter; otherwise `premium is True` picks the premium filter; otherwise the
unfiltered list. -/
def read_users (st : Store) (skip limit : Nat) (active premium : Option Bool) :
    List UserResponse :=
  (if active == some true then Ops.get_active_users st skip limit
   else if premium == some true then Ops.get_premium_users st skip limit
   else Ops.get_users st skip limit).map toUserResponse

/-- `main.read_user` (`GET /users/{user_id}`). -/
def read_user (st : Store) (user_id : Nat) : Except HTTPError UserResponse :=
  match Ops.get_user st user_id with
  | none => .error ⟨404, "User not found"⟩
  | some u => .ok (toUserResponse u)

/-- `main.read_user_with_tasks` (`GET /users/{user_id}/details`). -/
def read_user_with_tasks (st : Store) (user_id : Nat) :
    Except HTTPError UserWithTasks :=
  match Ops.get_user st user_id with
  | none => .error ⟨404, "User not found"⟩
  | some u => .ok (toUserWithTasks st u)

/-- `main.update_user` (`PUT /users/{user_id}`).  The duplicate guards use
Python truthiness on the payload fields (`if user.username and ...`,
`if user.email and ...`): an absent or empty-string value skips the guard.
An `IntegrityError` escaping `db.commit()` is unhandled, so FastAPI answers
with its generic 500 and the failed transaction persists nothing.  The
`.ok (none, _)` branch mirrors FastAPI serializing a `None` return as a
server error; it is unreachable because the user was just found. -/
def update_user (hash : String → String) (st : Store) (user_id : Nat)
    (user : UserUpdate) (now : Nat) : Except HTTPError UserResponse × Store :=
  match Ops.get_user st user_id with
  | none => (.error ⟨404, "User not found"⟩, st)
  | some db_user =>
    if truthyStr user.username && (user.username.getD "" != db_user.username)
        && (Ops.get_user_by_username st (user.username.getD "")).isSome then
      (.error ⟨400, "Username already taken"⟩, st)
    else if truthyStr user.email && (user.email.getD "" != db_user.email)
        && (Ops.get_user_by_email st (user.email.getD "")).isSome then
      (.error ⟨400, "Email already registered"⟩, st)
    else
      match Ops.update_user hash st user_id user now with
      | .ok (some u, st') => (.ok (toUserResponse u), st')
      | .ok (none, st') => (.error ⟨500, "Internal Server Error"⟩, st')
      | .error _ => (.error ⟨500, "Internal Server Error"⟩, st)

/-- `main.delete_user` (`DELETE /users/{user_id}`). -/
def delete_user (st : Store) (user_id : Nat) : Except HTTPError Unit × Store :=
  match Ops.get_user st user_id with
  | none => (.error ⟨404, "User not found"⟩, st)
  | some _ =>
    let (result, st') := Ops.delete_user st user_id
    if result then (.ok (), st') else (.error ⟨500, "Error deleting user"⟩, st')

/-- `main.create_task_for_user` (`POST /users/{user_id}/tasks/`). -/
def create_task_for_user (st : Store) (user_id : Nat) (task : TaskCreate)
    (now : Nat) : Except HTTPError TaskResponse × Store :=
  match Ops.get_user st user_id with
  | none => (.error ⟨404, "User not found"⟩, st)
  | some _ =>
    let (t, st') := Ops.create_task st task user_id now
    (.ok (toTaskResponse t), st')

/-- `main.read_tasks` (`GET /tasks/`). -/
def read_tasks (st : Store) (skip limit : Nat) : List TaskResponse :=
  (Ops.get_tasks st skip limit).map toTaskResponse

/-- `main.read_task` (`GET /tasks/{task_id}`). -/
def read_task (st : Store) (task_id : Nat) : Except HTTPError TaskResponse :=
  match Ops.get_task st task_id with
  | none => .error ⟨404, "Task not found"⟩
  | some t => .ok (toTaskResponse t)

/-- `main.read_user_tasks` (`GET /users/{user_id}/tasks/`). -/
def read_user_tasks (st : Store) (user_id : Nat) (skip limit : Nat) :
    Except HTTPError (List TaskResponse) :=
  match Ops.get_user st user_id with
  | none => .error ⟨404, "User not found"⟩
  | some _ => .ok ((Ops.get_user_tasks st user_id skip limit).map toTaskResponse)

/-- `main.update_task` (`PUT /tasks/{task_id}`). -/
def update_task (st : Store) (task_id : Nat) (task : TaskUpdate) (now : Nat) :
    Except HTTPError TaskResponse × Store :=
  match Ops.get_task st task_id with
  | none => (.error ⟨404, "Task not found"⟩, st)
  | some _ =>
    match Ops.update_task st task_id task now with
    | (some t, st') => (.ok (toTaskResponse t), st')
    | (none, st') => (.error ⟨500, "Internal Server Error"⟩, st')

/-- `main.delete_task` (`DELETE /tasks/{task_id}`). -/
def delete_task (st : Store) (task_id : Nat) : Except HTTPError Unit × Store :=
  match Ops.get_task st task_id with
  | none => (.error ⟨404, "Task not found"⟩, st)
  | some _ =>
    let (result, st') := Ops.delete_task st task_id
    if result then (.ok (), st') else (.error ⟨500, "Error deleting task"⟩, st')

/-- `main.read_root` (`GET /`): a fixed literal payload (the value of the
`message` field), reading no state. -/
def read_root : String := "Welcome to the User Tasks API"

/-- The route table registered on the FastAPI `app` in `main.py`:
every decorator `@app.<method>(<path>)` in the file, in order. -/
def appRoutes : List (String × String) :=
  [("GET", "/"),
   ("POST", "/users/"),
   ("GET", "/users/"),
   ("GET", "/users/\x7buser_id\x7d"),
   ("GET", "/users/\x7buser_id\x7d/details"),
   ("PUT", "/users/\x7buser_id\x7d"),
   ("DELETE", "/users/\x7buser_id\x7d"),
   ("POST", "/users/\x7buser_id\x7d/tasks/"),
   ("GET", "/tasks/"),
   ("GET", "/tasks/\x7btask_id\x7d"),
   ("GET", "/users/\x7buser_id\x7d/tasks/"),
   ("PUT", "/tasks/\x7btask_id\x7d"),
   ("DELETE", "/tasks/\x7btask_id\x7d")]

end Api

/-- Duplicate condition on usernames for `PUT /users/{user_id}`: the payload
supplies a non-empty username that differs from the user's current one and
some live user already holds it.  (Non-emptiness reflects the handler's
Python truthiness test.) -/
def usernameCollision (st : Store) (current : User) (p : UserUpdate) : Prop :=
  ∃ s, p.username = some s ∧ s ≠ "" ∧ s ≠ current.username ∧
    ∃ v ∈ st.users, v.username = s

/-- Duplicate condition on emails for `PUT /users/{user_id}`, analogous to
`usernameCollision`. -/
def emailCollision (st : Store) (current : User) (p : UserUpdate) : Prop :=
  ∃ s, p.email = some s ∧ s ≠ "" ∧ s ≠ current.email ∧
    ∃ v ∈ st.users, v.email = s

/-- Rewrite every stored password hash by `f`, leaving every other column
unchanged; responses being invariant under this states that no response
payload depends on (hence can contain) the password column. -/
def mapPasswords (f : String → String) (st : Store) : Store :=
  { st with users := st.users.map (fun u => { u with password := f u.password }) }

/-- Concrete fixture rows and stores used by the closed witnesses and
counterexamples below. -/
def anaUser : User := ⟨1, "ana", "ana@x.com", "H1", true, true, 0, 0⟩

/-- Fixture: a regular (non-premium) user. -/
def bobUser : User := ⟨2, "bob", "bob@x.com", "H2", true, false, 0, 0⟩

/-- Fixture: a live user whose username is the empty string (nothing in the
create path forbids it: the username check only requires that no other user
already has the same string). -/
def blankUser : User := ⟨3, "", "blank@x.com", "H3", true, false, 0, 0⟩

/-- Fixture task owned by user 1. -/
def taskOne : Models.Task := ⟨1, "write", some "report", false, 1, none, 1, 0, 0⟩

/-- Fixture task owned by user 2. -/
def taskTwo : Models.Task := ⟨2, "ship", none, false, 2, some 9, 2, 0, 0⟩

/-- Fixture store holding the three users and two tasks above. -/
def fixtureStore : Store := ⟨[anaUser, bobUser, blankUser], [taskOne, taskTwo]⟩

/-- Concrete stand-in for bcrypt in the closed witnesses. -/
def tagHash : String → String := fun s => "h:" ++ s

/-- Payload supplying only a username, with value the empty string. -/
def emptyNamePayload : UserUpdate := { username := some "" }

/-- Payload supplying only `is_premium = true` (premium promotion through
the generic `PUT /users/{user_id}` partial update). -/
def premiumPayload : UserUpdate := { is_premium := some true }

/-- A member satisfying the predicate makes `find?` succeed. -/
theorem find?_isSome_of_mem {α : Type} (l : List α) (p : α → Bool) (x : α)
    (hx : x ∈ l) (hp : p x = true) : (l.find? p).isSome :=
  List.find?_isSome.mpr ⟨x, hx, hp⟩

/-- Replacing the hit of `find?` (by an element still satisfying the
predicate) makes `find?` return the replacement. -/
theorem find?_map_replace {α : Type} (p : α → Bool) (u' : α) (h' : p u' = true)
    (l : List α) (u : α) (h : l.find? p = some u) :
    (l.map (fun v => if p v then u' else v)).find? p = some u' := by
  induction l with
  | nil => simp at h
  | cons x xs ih =>
    by_cases hx : p x = true
    · simp only [List.map_cons, if_pos hx]
      rw [List.find?_cons_of_pos _ h']
    · rw [List.find?_cons_of_neg _ hx] at h
      simp only [List.map_cons, if_neg hx]
      rw [List.find?_cons_of_neg _ hx]
      exact ih h

/-- `map` and `filter` commute when the map does not change the predicate. -/
theorem map_filter_comm {α : Type} (f : α → α) (p : α → Bool)
    (hp : ∀ x, p (f x) = p x) (l : List α) :
    (l.map f).filter p = (l.filter p).map f := by
  induction l with
  | nil => rfl
  | cons x xs ih =>
    simp only [List.map_cons, List.filter_cons, hp x]
    cases p x <;> simp [ih]

/-- `map` and `find?` commute when the map does not change the predicate. -/
theorem find?_map_comm {α : Type} (f : α → α) (p : α → Bool)
    (hp : ∀ x, p (f x) = p x) (l : List α) :
    (l.map f).find? p = (l.find? p).map f := by
  induction l with
  | nil => rfl
  | cons x xs ih =>
    by_cases hx : p x = true
    · simp only [List.map_cons]
      rw [List.find?_cons_of_pos _ (by rw [hp]; exact hx),
        List.find?_cons_of_pos _ hx]
      rfl
    · simp only [List.map_cons]
      rw [List.find?_cons_of_neg _ (by rw [hp]; exact hx),
        List.find?_cons_of_neg _ hx]
      exact ih

/-- C1: creating a User whose email equals the email of an already-stored
live User always rejects with an HTTP 400 error, and the store is unchanged
(no new User row is inserted), whatever the other request fields are. -/
theorem create_user_duplicate_email_rejected (hash : String → String)
    (st : Store) (req : UserCreate) (now : Nat) (u : User)
    (hmem : u ∈ st.users) (hemail : u.email = req.email) :
    (∃ e : HTTPError, (Api.create_user hash st req now).fst = Except.error e ∧
      e.status_code = 400) ∧
    (Api.create_user hash st req now).snd = st := by
  have hsome : (Ops.get_user_by_email st req.email).isSome :=
    find?_isSome_of_mem _ _ u hmem (by simp [hemail])
  cases hname : (Ops.get_user_by_username st req.username).isSome with
  | true =>
    refine ⟨⟨⟨400, "Username already registered"⟩, ?_, rfl⟩, ?_⟩ <;>
      simp [Api.create_user, hname]
  | false =>
    refine ⟨⟨⟨400, "Email already registered"⟩, ?_, rfl⟩, ?_⟩ <;>
      simp [Api.create_user, hname, hsome]

/-- Witness for C1 at a concrete input: a request reusing ana's email. -/
theorem create_user_duplicate_email_rejected_witness :
    (anaUser ∈ fixtureStore.users ∧ anaUser.email = "ana@x.com") ∧
    ((∃ e : HTTPError,
        (Api.create_user tagHash fixtureStore
          ⟨"carol", "ana@x.com", true, false, "pw"⟩ 7).fst = Except.error e ∧
        e.status_code = 400) ∧
      (Api.create_user tagHash fixtureStore
        ⟨"carol", "ana@x.com", true, false, "pw"⟩ 7).snd = fixtureStore) :=
  ⟨⟨by decide, rfl⟩,
    create_user_duplicate_email_rejected tagHash fixtureStore
      ⟨"carol", "ana@x.com", true, false, "pw"⟩ 7 anaUser (by decide) rfl⟩

/-- C7: a `limit` of 0 yields the empty list, a `skip` at or beyond the
record count yields the empty list, and no list operation ever returns more
than `limit` records. -/
theorem list_pagination_bounds (st : Store) (skip limit : Nat) :
    (Ops.get_users st skip 0 = [] ∧ Ops.get_active_users st skip 0 = [] ∧
     Ops.get_premium_users st skip 0 = [] ∧ Ops.get_tasks st skip 0 = [] ∧
     ∀ uid, Ops.get_user_tasks st uid skip 0 = []) ∧
    (st.users.length ≤ skip →
      Ops.get_users st skip limit = [] ∧
      Ops.get_active_users st skip limit = [] ∧
      Ops.get_premium_users st skip limit = []) ∧
    (st.tasks.length ≤ skip →
      Ops.get_tasks st skip limit = [] ∧
      ∀ uid, Ops.get_user_tasks st uid skip limit = []) ∧
    ((Ops.get_users st skip limit).length ≤ limit ∧
     (Ops.get_active_users st skip limit).length ≤ limit ∧
     (Ops.get_premium_users st skip limit).length ≤ limit ∧
     (Ops.get_tasks st skip limit).length ≤ limit ∧
     ∀ uid, (Ops.get_user_tasks st uid skip limit).length ≤ limit) := by
  refine ⟨⟨?_, ?_, ?_, ?_, fun uid => ?_⟩, fun h => ⟨?_, ?_, ?_⟩,
      fun h => ⟨?_, fun uid => ?_⟩, ⟨?_, ?_, ?_, ?_, fun uid => ?_⟩⟩
  · simp [Ops.get_users]
  · simp [Ops.get_active_users]
  · simp [Ops.get_premium_users]
  · simp [Ops.get_tasks]
  · simp [Ops.get_user_tasks]
  · simp [Ops.get_users, List.drop_eq_nil_of_le h]
  · simp [Ops.get_active_users,
      List.drop_eq_nil_of_le (le_trans (List.length_filter_le _ _) h)]
  · simp [Ops.get_premium_users,
      List.drop_eq_nil_of_le (le_trans (List.length_filter_le _ _) h)]
  · simp [Ops.get_tasks, List.drop_eq_nil_of_le h]
  · simp [Ops.get_user_tasks,
      List.drop_eq_nil_of_le (le_trans (List.length_filter_le _ _) h)]
  · exact List.length_take_le limit _
  · exact List.length_take_le limit _
  · exact List.length_take_le limit _
  · exact List.length_take_le limit _
  · exact List.length_take_le limit _

/-- Witness for C7 at a concrete input. -/
theorem list_pagination_bounds_witness :
    Ops.get_users fixtureStore 1 0 = [] ∧
    (fixtureStore.users.length ≤ 5 ∧ Ops.get_users fixtureStore 5 2 = []) ∧
    (Ops.get_users fixtureStore 1 2).length ≤ 2 :=
  ⟨(list_pagination_bounds fixtureStore 1 2).1.1,
    ⟨by decide, ((list_pagination_bounds fixtureStore 5 2).2.1 (by decide)).1⟩,
    (list_pagination_bounds fixtureStore 1 2).2.2.2.1⟩

/-- C10: in `GET /users/`, a false-valued `active` or `premium` filter
behaves exactly like an absent one, and when `active=true` is supplied the
`premium` parameter has no effect on the result. -/
theorem false_filters_ignored (st : Store) (skip limit : Nat)
    (a p q r : Option Bool) :
    Api.read_users st skip limit (some false) p = Api.read_users st skip limit none p ∧
    Api.read_users st skip limit a (some false) = Api.read_users st skip limit a none ∧
    Api.read_users st skip limit (some true) q = Api.read_users st skip limit (some true) r := by
  refine ⟨rfl, ?_, rfl⟩
  cases a with
  | none => rfl
  | some b => cases b <;> rfl

/-- Reduction of `Ops.update_user` when the row exists and the commit does
not violate a UNIQUE constraint. -/
theorem update_user_eq_of_get (hash : String → String) (st : Store)
    (uid : Nat) (d : UserUpdate) (now : Nat) (u : User)
    (hu : Ops.get_user st uid = some u)
    (hc : Ops.uniqueConflict st uid u d = false) :
    Ops.update_user hash st uid d now =
      Except.ok (some (Ops.applyUserUpdate hash u d now),
       { st with users := st.users.map (fun v =>
          if v.id == uid then Ops.applyUserUpdate hash u d now else v) }) := by
  unfold Ops.update_user
  rw [hu]
  simp [hc]

/-- Reduction of `Ops.update_user` when the row is absent. -/
theorem update_user_eq_of_none (hash : String → String) (st : Store)
    (uid : Nat) (d : UserUpdate) (now : Nat)
    (hu : Ops.get_user st uid = none) :
    Ops.update_user hash st uid d now = Except.ok (none, st) := by
  unfold Ops.update_user
  rw [hu]

/-- Reduction of `Ops.update_user` when the commit violates a UNIQUE
constraint: the `IntegrityError` propagates and nothing is persisted. -/
theorem update_user_eq_of_conflict (hash : String → String) (st : Store)
    (uid : Nat) (d : UserUpdate) (now : Nat) (u : User)
    (hu : Ops.get_user st uid = some u)
    (hc : Ops.uniqueConflict st uid u d = true) :
    Ops.update_user hash st uid d now = Except.error "IntegrityError" := by
  unfold Ops.update_user
  rw [hu]
  simp [hc]

/-- Inversion: a committed update that returned a row found that row,
passed the commit-time uniqueness check, and returned the applied row. -/
theorem update_user_ok_inv (hash : String → String) (st : Store)
    (uid now : Nat) (d : UserUpdate) (ru : User)
    (h : (Ops.update_user hash st uid d now).map Prod.fst = Except.ok (some ru)) :
    ∃ u, Ops.get_user st uid = some u ∧ Ops.uniqueConflict st uid u d = false ∧
      ru = Ops.applyUserUpdate hash u d now := by
  cases hu : Ops.get_user st uid with
  | none =>
    rw [update_user_eq_of_none hash st uid d now hu] at h
    simp [Except.map] at h
  | some u =>
    cases hc : Ops.uniqueConflict st uid u d with
    | true =>
      rw [update_user_eq_of_conflict hash st uid d now u hu hc] at h
      simp [Except.map] at h
    | false =>
      rw [update_user_eq_of_get hash st uid d now u hu hc] at h
      simp only [Except.map, Except.ok.injEq, Option.some.injEq] at h
      refine ⟨u, rfl, hc, ?_⟩
      exact h.symm

/-- A payload that re-supplies the user's own values (or omits them) never
violates a UNIQUE constraint at commit. -/
theorem uniqueConflict_false_of_own (st : Store) (uid : Nat) (cu : User)
    (p : UserUpdate)
    (h1 : p.username = none ∨ p.username = some cu.username)
    (h2 : p.email = none ∨ p.email = some cu.email) :
    Ops.uniqueConflict st uid cu p = false := by
  unfold Ops.uniqueConflict
  rcases h1 with h1 | h1 <;> rcases h2 with h2 | h2 <;> simp [h1, h2]

/-- Reduction of `Ops.update_task` when the row exists. -/
theorem update_task_eq_of_get (st : Store) (tid : Nat) (d : TaskUpdate)
    (now : Nat) (t : Models.Task) (ht : Ops.get_task st tid = some t) :
    Ops.update_task st tid d now =
      (some (Ops.applyTaskUpdate t d now),
       { st with tasks := st.tasks.map (fun v =>
          if v.id == tid then Ops.applyTaskUpdate t d now else v) }) := by
  unfold Ops.update_task
  rw [ht]

/-- Reduction of `Ops.update_task` when the row is absent. -/
theorem update_task_eq_of_none (st : Store) (tid : Nat) (d : TaskUpdate)
    (now : Nat) (ht : Ops.get_task st tid = none) :
    Ops.update_task st tid d now = (none, st) := by
  unfold Ops.update_task
  rw [ht]

/-- C3: in a partial update of a User or a Task, fields absent from the
payload are unchanged, while a field present with value null clears the
column where the schema allows an optional value (`Task.description`,
`Task.due_date`) — present-null is distinct from absence. -/
theorem partial_update_frame (hash : String → String) (st : Store)
    (uid tid now : Nat) (pu : UserUpdate) (pt : TaskUpdate) (u ru : User)
    (t rt : Models.Task)
    (hu : Ops.get_user st uid = some u)
    (hru : (Ops.update_user hash st uid pu now).map Prod.fst = Except.ok (some ru))
    (ht : Ops.get_task st tid = some t)
    (hrt : (Ops.update_task st tid pt now).fst = some rt) :
    (pu.username = none → ru.username = u.username) ∧
    (pu.email = none → ru.email = u.email) ∧
    (pu.password = none → ru.password = u.password) ∧
    (pu.is_active = none → ru.is_active = u.is_active) ∧
    (pu.is_premium = none → ru.is_premium = u.is_premium) ∧
    (pt.title = none → rt.title = t.title) ∧
    (pt.description = none → rt.description = t.description) ∧
    (pt.completed = none → rt.completed = t.completed) ∧
    (pt.priority = none → rt.priority = t.priority) ∧
    (pt.due_date = none → rt.due_date = t.due_date) ∧
    (pt.description = some none → rt.description = none) ∧
    (pt.due_date = some none → rt.due_date = none) := by
  obtain ⟨u', hu', hc, hr⟩ := update_user_ok_inv hash st uid now pu ru hru
  rw [hu] at hu'
  injection hu' with hu'
  subst hu'
  rw [update_task_eq_of_get st tid pt now t ht] at hrt
  injection hrt with hrt
  subst hr hrt
  refine ⟨fun h => ?_, fun h => ?_, fun h => ?_, fun h => ?_, fun h => ?_,
    fun h => ?_, fun h => ?_, fun h => ?_, fun h => ?_, fun h => ?_,
    fun h => ?_, fun h => ?_⟩ <;>
    simp [Ops.applyUserUpdate, Ops.applyTaskUpdate, h]

/-- Witness for C3 at a concrete input: bob updated with only an email,
task one updated with a payload clearing the description. -/
theorem partial_update_frame_witness :
    (Ops.get_user fixtureStore 2 = some bobUser ∧
     (Ops.update_user tagHash fixtureStore 2 ({ email := some "new@x.com" } : UserUpdate) 5).map
        Prod.fst = Except.ok (some ⟨2, "bob", "new@x.com", "H2", true, false, 0, 5⟩) ∧
     Ops.get_task fixtureStore 1 = some taskOne ∧
     (Ops.update_task fixtureStore 1 ({ description := some none } : TaskUpdate) 5).fst
        = some ⟨1, "write", none, false, 1, none, 1, 0, 5⟩) ∧
    ((⟨2, "bob", "new@x.com", "H2", true, false, 0, 5⟩ : User).username = bobUser.username ∧
     (⟨2, "bob", "new@x.com", "H2", true, false, 0, 5⟩ : User).password = bobUser.password ∧
     (⟨1, "write", none, false, 1, none, 1, 0, 5⟩ : Models.Task).title = taskOne.title ∧
     (⟨1, "write", none, false, 1, none, 1, 0, 5⟩ : Models.Task).description = none) := by
  have h := partial_update_frame tagHash fixtureStore 2 1 5
      ({ email := some "new@x.com" } : UserUpdate)
      ({ description := some none } : TaskUpdate)
      bobUser ⟨2, "bob", "new@x.com", "H2", true, false, 0, 5⟩
      taskOne ⟨1, "write", none, false, 1, none, 1, 0, 5⟩
      rfl rfl rfl rfl
  obtain ⟨h1, h2, h3, h4, h5, h6, h7, h8, h9, h10, h11, h12⟩ := h
  exact ⟨⟨rfl, rfl, rfl, rfl⟩, h1 rfl, h3 rfl, h6 rfl, h11 rfl⟩

/-- C8: every successful partial update of a User or a Task sets the row's
`updated_at` to the current time. -/
theorem mutation_sets_updated_at (hash : String → String) (st : Store)
    (uid tid now : Nat) (pu : UserUpdate) (pt : TaskUpdate) (ru : User)
    (rt : Models.Task)
    (hru : (Ops.update_user hash st uid pu now).map Prod.fst = Except.ok (some ru))
    (hrt : (Ops.update_task st tid pt now).fst = some rt) :
    ru.updated_at = now ∧ rt.updated_at = now := by
  constructor
  · obtain ⟨u, hu, hc, hr⟩ := update_user_ok_inv hash st uid now pu ru hru
    subst hr
    rfl
  · cases ht : Ops.get_task st tid with
    | none => rw [update_task_eq_of_none st tid pt now ht] at hrt; cases hrt
    | some t =>
      rw [update_task_eq_of_get st tid pt now t ht] at hrt
      injection hrt with hrt
      subst hrt
      rfl

/-- Witness for C8 at a concrete input. -/
theorem mutation_sets_updated_at_witness :
    ((Ops.update_user tagHash fixtureStore 2 ({ email := some "new@x.com" } : UserUpdate) 9).map
        Prod.fst = Except.ok (some ⟨2, "bob", "new@x.com", "H2", true, false, 0, 9⟩) ∧
     (Ops.update_task fixtureStore 1 ({ completed := some true } : TaskUpdate) 9).fst
        = some ⟨1, "write", some "report", true, 1, none, 1, 0, 9⟩) ∧
    ((⟨2, "bob", "new@x.com", "H2", true, false, 0, 9⟩ : User).updated_at = 9 ∧
     (⟨1, "write", some "report", true, 1, none, 1, 0, 9⟩ : Models.Task).updated_at = 9) :=
  ⟨⟨rfl, rfl⟩,
    mutation_sets_updated_at tagHash fixtureStore 2 1 9
      ({ email := some "new@x.com" } : UserUpdate)
      ({ completed := some true } : TaskUpdate)
      ⟨2, "bob", "new@x.com", "H2", true, false, 0, 9⟩
      ⟨1, "write", some "report", true, 1, none, 1, 0, 9⟩ rfl rfl⟩

/-- C9: when the update payload carries `password = ""`, the empty string is
stored in the password column verbatim, for every hash function — the
hashing branch is taken only when the supplied password is non-empty. -/
theorem empty_password_stored_verbatim (hash : String → String) (st : Store)
    (uid now : Nat) (p : UserUpdate) (ru : User)
    (hru : (Ops.update_user hash st uid p now).map Prod.fst = Except.ok (some ru)) :
    (p.password = some "" → ru.password = "") ∧
    (∀ s, p.password = some s → s ≠ "" → ru.password = hash s) := by
  obtain ⟨u, hu, hc, hr⟩ := update_user_ok_inv hash st uid now p ru hru
  subst hr
  constructor
  · intro h
    simp [Ops.applyUserUpdate, h]
  · intro s hs hne
    simp [Ops.applyUserUpdate, hs, hne]

/-- Witness for C9 at a concrete input: bob updated with an empty password;
under the claim no one-way hashing takes place and `""` is stored. -/
theorem empty_password_stored_verbatim_witness :
    ((Ops.update_user tagHash fixtureStore 2 ({ password := some "" } : UserUpdate) 5).map
        Prod.fst = Except.ok (some ⟨2, "bob", "bob@x.com", "", true, false, 0, 5⟩) ∧
     ({ password := some "" } : UserUpdate).password = some "") ∧
    (⟨2, "bob", "bob@x.com", "", true, false, 0, 5⟩ : User).password = "" :=
  ⟨⟨rfl, rfl⟩,
    (empty_password_stored_verbatim tagHash fixtureStore 2 5
      ({ password := some "" } : UserUpdate)
      ⟨2, "bob", "bob@x.com", "", true, false, 0, 5⟩ rfl).1 rfl⟩

/-- Reduction of `Ops.delete_user` when the row exists: the user row is
removed and the relationship cascade removes every owned task. -/
theorem delete_user_eq_of_get (st : Store) (uid : Nat) (u : User)
    (hu : Ops.get_user st uid = some u) :
    Ops.delete_user st uid =
      (true,
       ⟨st.users.filter (fun v => v.id != uid),
        st.tasks.filter (fun t => t.user_id != uid)⟩) := by
  unfold Ops.delete_user
  rw [hu]

/-- C4: deleting an existing User removes every Task whose `user_id` is the
User's id — no orphan Task remains — and a subsequent fetch of any such Task
returns 404 Task not found.  (The id-uniqueness hypothesis is the `tasks`
primary key.) -/
theorem delete_user_cascades (st : Store) (uid : Nat) (u : User)
    (hu : Ops.get_user st uid = some u)
    (hids : st.tasks.Pairwise (fun a b => a.id ≠ b.id)) :
    (∀ t ∈ (Ops.delete_user st uid).snd.tasks, t.user_id ≠ uid) ∧
    (∀ t ∈ st.tasks, t.user_id = uid →
      Api.read_task (Ops.delete_user st uid).snd t.id =
        Except.error ⟨404, "Task not found"⟩) := by
  have hsnd : (Ops.delete_user st uid).snd =
      ⟨st.users.filter (fun v => v.id != uid),
       st.tasks.filter (fun t => t.user_id != uid)⟩ := by
    rw [delete_user_eq_of_get st uid u hu]
  constructor
  · intro t ht
    rw [hsnd] at ht
    simp only [List.mem_filter, bne_iff_ne, ne_eq] at ht
    exact ht.2
  · intro t htm hown
    have hnone : Ops.get_task (Ops.delete_user st uid).snd t.id = none := by
      rw [hsnd]
      unfold Ops.get_task
      rw [List.find?_eq_none]
      intro x hx
      simp only [List.mem_filter, bne_iff_ne, ne_eq] at hx
      simp only [beq_iff_eq]
      intro hxid
      have hxt : x ≠ t := by
        intro he
        subst he
        exact hx.2 hown
      exact List.Pairwise.forall (fun a b hab => Ne.symm hab) hids hx.1 htm hxt hxid
    unfold Api.read_task
    rw [hnone]

/-- Witness for C4 at a concrete input: deleting user 1 removes task one. -/
theorem delete_user_cascades_witness :
    (Ops.get_user fixtureStore 1 = some anaUser ∧
     fixtureStore.tasks.Pairwise (fun a b => a.id ≠ b.id) ∧
     taskOne ∈ fixtureStore.tasks ∧ taskOne.user_id = 1) ∧
    Api.read_task (Ops.delete_user fixtureStore 1).snd taskOne.id =
      Except.error ⟨404, "Task not found"⟩ :=
  ⟨⟨rfl, by decide, by decide, rfl⟩,
    (delete_user_cascades fixtureStore 1 anaUser rfl (by decide)).2 taskOne
      (by decide) rfl⟩

/-- Serializing to `UserResponse` is invariant under password rewriting. -/
theorem map_toUserResponse_mapPw (f : String → String) (l : List User) :
    (l.map (fun u => { u with password := f u.password })).map toUserResponse
      = l.map toUserResponse := by
  induction l with
  | nil => rfl
  | cons x xs ih =>
    simp only [List.map_cons, ih]
    rfl

/-- `get_user` commutes with password rewriting. -/
theorem get_user_mapPw (f : String → String) (st : Store) (uid : Nat) :
    Ops.get_user (mapPasswords f st) uid =
      (Ops.get_user st uid).map (fun u => { u with password := f u.password }) :=
  find?_map_comm (fun u : User => { u with password := f u.password })
    (fun u => u.id == uid) (fun _ => rfl) st.users

/-- The sliced user lists serialize identically after password rewriting. -/
theorem get_users_mapPw (f : String → String) (st : Store) (skip limit : Nat) :
    (Ops.get_users (mapPasswords f st) skip limit).map toUserResponse
      = (Ops.get_users st skip limit).map toUserResponse := by
  unfold Ops.get_users mapPasswords
  rw [← List.map_drop, ← List.map_take, map_toUserResponse_mapPw]

/-- As `get_users_mapPw`, for the active filter. -/
theorem get_active_users_mapPw (f : String → String) (st : Store)
    (skip limit : Nat) :
    (Ops.get_active_users (mapPasswords f st) skip limit).map toUserResponse
      = (Ops.get_active_users st skip limit).map toUserResponse := by
  show ((((st.users.map (fun u => { u with password := f u.password })).filter
      (fun u => u.is_active)).drop skip).take limit).map toUserResponse
    = (((st.users.filter (fun u => u.is_active)).drop skip).take limit).map toUserResponse
  rw [map_filter_comm (fun u : User => { u with password := f u.password })
      (fun u => u.is_active) (fun _ => rfl),
    ← List.map_drop, ← List.map_take, map_toUserResponse_mapPw]

/-- As `get_users_mapPw`, for the premium filter. -/
theorem get_premium_users_mapPw (f : String → String) (st : Store)
    (skip limit : Nat) :
    (Ops.get_premium_users (mapPasswords f st) skip limit).map toUserResponse
      = (Ops.get_premium_users st skip limit).map toUserResponse := by
  show ((((st.users.map (fun u => { u with password := f u.password })).filter
      (fun u => u.is_premium)).drop skip).take limit).map toUserResponse
    = (((st.users.filter (fun u => u.is_premium)).drop skip).take limit).map toUserResponse
  rw [map_filter_comm (fun u : User => { u with password := f u.password })
      (fun u => u.is_premium) (fun _ => rfl),
    ← List.map_drop, ← List.map_take, map_toUserResponse_mapPw]

/-- `get_user_by_username` commutes with password rewriting. -/
theorem get_user_by_username_mapPw (f : String → String) (st : Store)
    (s : String) :
    Ops.get_user_by_username (mapPasswords f st) s =
      (Ops.get_user_by_username st s).map
        (fun u => { u with password := f u.password }) :=
  find?_map_comm (fun u : User => { u with password := f u.password })
    (fun u => u.username == s) (fun _ => rfl) st.users

/-- `get_user_by_email` commutes with password rewriting. -/
theorem get_user_by_email_mapPw (f : String → String) (st : Store)
    (s : String) :
    Ops.get_user_by_email (mapPasswords f st) s =
      (Ops.get_user_by_email st s).map
        (fun u => { u with password := f u.password }) :=
  find?_map_comm (fun u : User => { u with password := f u.password })
    (fun u => u.email == s) (fun _ => rfl) st.users

/-- `get_task` ignores the users table, so password rewriting is invisible. -/
theorem get_task_mapPw (f : String → String) (st : Store) (tid : Nat) :
    Ops.get_task (mapPasswords f st) tid = Ops.get_task st tid := rfl

/-- The fold computing the next user id ignores passwords. -/
theorem foldr_maxid_mapPw (f : String → String) (l : List User) :
    (l.map (fun u => { u with password := f u.password })).foldr
        (fun u m => max u.id m) 0
      = l.foldr (fun u m => max u.id m) 0 := by
  induction l with
  | nil => rfl
  | cons x xs ih => simp [ih]

/-- The autoincrement user id is unchanged by password rewriting. -/
theorem nextUserId_mapPw (f : String → String) (st : Store) :
    Ops.nextUserId (mapPasswords f st) = Ops.nextUserId st :=
  congrArg (fun n => n + 1) (foldr_maxid_mapPw f st.users)

/-- The commit-time uniqueness check reads no password: it is insensitive
to rewriting stored passwords, to the current row's password, and to the
password field of the payload. -/
theorem uniqueConflict_mapPw (f : String → String) (st : Store) (uid : Nat)
    (u : User) (x : String) (pun pem : Option String) (q1 q2 : Option String)
    (pia pip : Option Bool) :
    Ops.uniqueConflict (mapPasswords f st) uid { u with password := x }
        ⟨pun, pem, q1, pia, pip⟩
      = Ops.uniqueConflict st uid u ⟨pun, pem, q2, pia, pip⟩ := by
  unfold Ops.uniqueConflict mapPasswords
  cases pun <;> cases pem <;> simp [List.any_map, Function.comp] <;> rfl

/-- C5: no response payload of any of the thirteen registered endpoints
contains the stored password hash or a cleartext password.  Formalised as
non-interference: each read endpoint's response is unchanged when every
stored password is rewritten arbitrarily; each mutating endpoint's response
payload is additionally independent of the hash function and of the
password supplied in the request; the delete endpoints' empty-body
success/error shape is password-independent; and the root endpoint is a
fixed literal.  The response schemas carry no password field at all. -/
theorem responses_password_independent (st : Store) (f : String → String)
    (hash hash2 : String → String) (pw1 pw2 : String)
    (un em : String) (ia ip : Bool)
    (pun pem q1 q2 : Option String) (pia pip : Option Bool)
    (uid tid skip limit now : Nat) (active premium : Option Bool)
    (tc : TaskCreate) (pt : TaskUpdate) :
    Api.read_users (mapPasswords f st) skip limit active premium
      = Api.read_users st skip limit active premium ∧
    Api.read_user (mapPasswords f st) uid = Api.read_user st uid ∧
    Api.read_user_with_tasks (mapPasswords f st) uid
      = Api.read_user_with_tasks st uid ∧
    Api.read_tasks (mapPasswords f st) skip limit
      = Api.read_tasks st skip limit ∧
    Api.read_task (mapPasswords f st) tid = Api.read_task st tid ∧
    Api.read_user_tasks (mapPasswords f st) uid skip limit
      = Api.read_user_tasks st uid skip limit ∧
    (Api.create_user hash (mapPasswords f st) ⟨un, em, ia, ip, pw1⟩ now).fst
      = (Api.create_user hash2 st ⟨un, em, ia, ip, pw2⟩ now).fst ∧
    (Api.update_user hash (mapPasswords f st) uid ⟨pun, pem, q1, pia, pip⟩ now).fst
      = (Api.update_user hash2 st uid ⟨pun, pem, q2, pia, pip⟩ now).fst ∧
    (Api.create_task_for_user (mapPasswords f st) uid tc now).fst
      = (Api.create_task_for_user st uid tc now).fst ∧
    (Api.update_task (mapPasswords f st) tid pt now).fst
      = (Api.update_task st tid pt now).fst ∧
    (Api.delete_user (mapPasswords f st) uid).fst = (Api.delete_user st uid).fst ∧
    (Api.delete_task (mapPasswords f st) tid).fst = (Api.delete_task st tid).fst ∧
    Api.read_root = "Welcome to the User Tasks API" := by
  refine ⟨?_, ?_, ?_, rfl, rfl, ?_, ?_, ?_, ?_, ?_, ?_, ?_, rfl⟩
  · unfold Api.read_users
    split_ifs
    · exact get_active_users_mapPw f st skip limit
    · exact get_premium_users_mapPw f st skip limit
    · exact get_users_mapPw f st skip limit
  · unfold Api.read_user
    rw [get_user_mapPw]
    cases Ops.get_user st uid <;> rfl
  · unfold Api.read_user_with_tasks
    rw [get_user_mapPw]
    cases Ops.get_user st uid <;> rfl
  · unfold Api.read_user_tasks
    rw [get_user_mapPw]
    cases Ops.get_user st uid <;> rfl
  · unfold Api.create_user
    rw [get_user_by_username_mapPw, get_user_by_email_mapPw]
    simp only [Option.isSome_map']
    by_cases h1 : (Ops.get_user_by_username st un).isSome = true
    · simp [h1]
    · by_cases h2 : (Ops.get_user_by_email st em).isSome = true
      · simp [h1, h2]
      · simp [h1, h2, Ops.create_user, toUserResponse, nextUserId_mapPw]
  · unfold Api.update_user Ops.update_user
    rw [get_user_mapPw]
    cases h : Ops.get_user st uid with
    | none => rfl
    | some u =>
      rw [get_user_by_username_mapPw, get_user_by_email_mapPw]
      simp only [Option.map_some', Option.isSome_map']
      by_cases hA : (truthyStr pun && (pun.getD "" != u.username)
          && (Ops.get_user_by_username st (pun.getD "")).isSome) = true
      · simp [hA]
      · by_cases hB : (truthyStr pem && (pem.getD "" != u.email)
            && (Ops.get_user_by_email st (pem.getD "")).isSome) = true
        · simp [hA, hB]
        · rw [uniqueConflict_mapPw f st uid u (f u.password) pun pem q1 q2 pia pip]
          by_cases hC :
              Ops.uniqueConflict st uid u ⟨pun, pem, q2, pia, pip⟩ = true
          · simp [hA, hB, hC]
          · simp [hA, hB, hC, Ops.applyUserUpdate, toUserResponse]
  · unfold Api.create_task_for_user
    rw [get_user_mapPw]
    cases Ops.get_user st uid <;> rfl
  · unfold Api.update_task Ops.update_task
    rw [get_task_mapPw]
    cases Ops.get_task st tid <;> rfl
  · unfold Api.delete_user Ops.delete_user
    rw [get_user_mapPw]
    cases Ops.get_user st uid <;> rfl
  · unfold Api.delete_task Ops.delete_task
    rw [get_task_mapPw]
    cases Ops.get_task st tid <;> rfl

/-- The username guard condition evaluated by `main.update_user` holds
exactly when `usernameCollision` does. -/
theorem usernameCollision_iff (st : Store) (cu : User) (p : UserUpdate) :
    usernameCollision st cu p ↔
      (truthyStr p.username && (p.username.getD "" != cu.username)
        && (Ops.get_user_by_username st (p.username.getD "")).isSome) = true := by
  cases hp : p.username with
  | none => simp [usernameCollision, truthyStr, hp]
  | some s =>
    simp only [usernameCollision, hp, truthyStr, Option.getD_some,
      Bool.and_eq_true, bne_iff_ne, ne_eq, Ops.get_user_by_username,
      List.find?_isSome, beq_iff_eq, Option.some.injEq]
    constructor
    · rintro ⟨s', hs', hne, hnecu, v, hv, hvs⟩
      subst hs'
      exact ⟨⟨hne, hnecu⟩, v, hv, hvs⟩
    · rintro ⟨⟨hne, hnecu⟩, v, hv, hvs⟩
      exact ⟨s, rfl, hne, hnecu, v, hv, hvs⟩

/-- The email guard condition evaluated by `main.update_user` holds exactly
when `emailCollision` does. -/
theorem emailCollision_iff (st : Store) (cu : User) (p : UserUpdate) :
    emailCollision st cu p ↔
      (truthyStr p.email && (p.email.getD "" != cu.email)
        && (Ops.get_user_by_email st (p.email.getD "")).isSome) = true := by
  cases hp : p.email with
  | none => simp [emailCollision, truthyStr, hp]
  | some s =>
    simp only [emailCollision, hp, truthyStr, Option.getD_some,
      Bool.and_eq_true, bne_iff_ne, ne_eq, Ops.get_user_by_email,
      List.find?_isSome, beq_iff_eq, Option.some.injEq]
    constructor
    · rintro ⟨s', hs', hne, hnecu, v, hv, hvs⟩
      subst hs'
      exact ⟨⟨hne, hnecu⟩, v, hv, hvs⟩
    · rintro ⟨⟨hne, hnecu⟩, v, hv, hvs⟩
      exact ⟨s, rfl, hne, hnecu, v, hv, hvs⟩

/-- C2 (amended): updating an existing User rejects with an HTTP 400
duplicate error exactly when the supplied email (or username) is non-empty,
differs from the User's current value, and collides with some live User's
value — the non-emptiness proviso comes from the handler's Python truthiness
test; in particular, re-supplying the User's own current email or username
(or omitting both) succeeds. -/
theorem update_user_duplicate_guard (hash : String → String) (st : Store)
    (uid now : Nat) (p : UserUpdate) (cu : User)
    (hcu : Ops.get_user st uid = some cu) :
    ((∃ e : HTTPError, (Api.update_user hash st uid p now).fst = Except.error e ∧
        e.status_code = 400) ↔
      (usernameCollision st cu p ∨ emailCollision st cu p)) ∧
    ((p.username = none ∨ p.username = some cu.username) →
     (p.email = none ∨ p.email = some cu.email) →
     (Api.update_user hash st uid p now).fst =
        Except.ok (toUserResponse (Ops.applyUserUpdate hash cu p now))) := by
  cases hA : (truthyStr p.username && (p.username.getD "" != cu.username)
      && (Ops.get_user_by_username st (p.username.getD "")).isSome) with
  | true =>
    have hfst : (Api.update_user hash st uid p now).fst =
        Except.error ⟨400, "Username already taken"⟩ := by
      simp [Api.update_user, hcu, hA]
    constructor
    · rw [hfst]
      exact iff_of_true ⟨⟨400, "Username already taken"⟩, rfl, rfl⟩
        (Or.inl ((usernameCollision_iff st cu p).mpr hA))
    · intro h1 _
      exfalso
      rcases h1 with h1 | h1 <;>
        simp [truthyStr, h1] at hA
  | false =>
    cases hB : (truthyStr p.email && (p.email.getD "" != cu.email)
        && (Ops.get_user_by_email st (p.email.getD "")).isSome) with
    | true =>
      have hfst : (Api.update_user hash st uid p now).fst =
          Except.error ⟨400, "Email already registered"⟩ := by
        simp [Api.update_user, hcu, hA, hB]
      constructor
      · rw [hfst]
        exact iff_of_true ⟨⟨400, "Email already registered"⟩, rfl, rfl⟩
          (Or.inr ((emailCollision_iff st cu p).mpr hB))
      · intro _ h2
        exfalso
        rcases h2 with h2 | h2 <;>
          simp [truthyStr, h2] at hB
    | false =>
      cases hC : Ops.uniqueConflict st uid cu p with
      | true =>
        have hfst : (Api.update_user hash st uid p now).fst =
            Except.error ⟨500, "Internal Server Error"⟩ := by
          simp [Api.update_user, hcu, hA, hB,
            update_user_eq_of_conflict hash st uid p now cu hcu hC]
        constructor
        · rw [hfst]
          refine iff_of_false ?_ ?_
          · rintro ⟨e, he, hs⟩
            injection he with he
            rw [← he] at hs
            simp at hs
          · rintro (hc | hc)
            · rw [usernameCollision_iff st cu p, hA] at hc
              exact Bool.false_ne_true hc
            · rw [emailCollision_iff st cu p, hB] at hc
              exact Bool.false_ne_true hc
        · intro h1 h2
          exact absurd
            ((uniqueConflict_false_of_own st uid cu p h1 h2).symm.trans hC)
            Bool.false_ne_true
      | false =>
        have hfst : (Api.update_user hash st uid p now).fst =
            Except.ok (toUserResponse (Ops.applyUserUpdate hash cu p now)) := by
          simp [Api.update_user, hcu, hA, hB,
            update_user_eq_of_get hash st uid p now cu hcu hC]
        constructor
        · rw [hfst]
          refine iff_of_false (by simp) ?_
          rintro (hc | hc)
          · rw [usernameCollision_iff st cu p, hA] at hc
            exact Bool.false_ne_true hc
          · rw [emailCollision_iff st cu p, hB] at hc
            exact Bool.false_ne_true hc
        · intro _ _
          exact hfst

/-- Witness for C2 (amended) at a concrete input: bob re-supplying an email
already registered to ana gets a 400. -/
theorem update_user_duplicate_guard_witness :
    (Ops.get_user fixtureStore 2 = some bobUser ∧
     ({ email := some "ana@x.com" } : UserUpdate).email = some "ana@x.com" ∧
     anaUser ∈ fixtureStore.users ∧ anaUser.email = "ana@x.com") ∧
    (∃ e : HTTPError,
      (Api.update_user tagHash fixtureStore 2
        ({ email := some "ana@x.com" } : UserUpdate) 5).fst = Except.error e ∧
      e.status_code = 400) :=
  ⟨⟨rfl, rfl, by decide, rfl⟩,
    (update_user_duplicate_guard tagHash fixtureStore 2 5
      ({ email := some "ana@x.com" } : UserUpdate) bobUser rfl).1.mpr
      (Or.inr ⟨"ana@x.com", rfl, by decide, by decide, anaUser, by decide, rfl⟩)⟩

/-- Counterexample to C2 as stated: the store holds a live user whose
username is the empty string; bob supplies `username = ""`, which differs
from his current username and collides with that user.  The claim demands a
DuplicateKey rejection (HTTP 400), but the handler's truthiness guard skips
the duplicate check for an empty string and the write then fails at
`db.commit()` with an `IntegrityError`, surfacing as HTTP 500 — not 400 —
with the store unchanged. -/
theorem update_user_empty_username_not_rejected :
    blankUser ∈ fixtureStore.users ∧
    blankUser.username = "" ∧
    emptyNamePayload.username = some "" ∧
    bobUser.username ≠ "" ∧
    Ops.get_user fixtureStore 2 = some bobUser ∧
    Api.update_user tagHash fixtureStore 2 emptyNamePayload 5 =
      (Except.error ⟨500, "Internal Server Error"⟩, fixtureStore) := by
  refine ⟨by decide, rfl, rfl, by decide, rfl, rfl⟩

/-- Counterexample to C6 as stated: the FastAPI app registers no
`PATCH /users/{user_id}/premium` route — indeed no PATCH route at all. -/
theorem premium_route_missing :
    ("PATCH", "/users/\x7buser_id\x7d/premium") ∉ Api.appRoutes ∧
    Api.appRoutes.all (fun r => r.1 != "PATCH") = true := by
  decide

/-- C6 (amended): there is no dedicated premium endpoint; promotion goes
through the generic `PUT /users/{user_id}` with the payload supplying only
`is_premium = true`.  That update returns 404 when the User is absent and,
on an already-premium User, succeeds and is a no-op beyond `updated_at`:
the stored row afterwards is the old row with only `updated_at` changed. -/
theorem premium_promotion_via_put (hash : String → String) (st : Store)
    (uid now : Nat) (u : User) (hu : Ops.get_user st uid = some u)
    (hprem : u.is_premium = true) :
    (Api.update_user hash st uid premiumPayload now).fst =
      Except.ok (toUserResponse { u with updated_at := now }) ∧
    Ops.get_user (Api.update_user hash st uid premiumPayload now).snd uid =
      some { u with updated_at := now } ∧
    (∀ v : Nat, Ops.get_user st v = none →
      (Api.update_user hash st v premiumPayload now).fst =
        Except.error ⟨404, "User not found"⟩) := by
  have happ : Ops.applyUserUpdate hash u premiumPayload now =
      { u with updated_at := now } := by
    obtain ⟨i, un, em, pw, ia, ip, ca, ua⟩ := u
    simp only at hprem
    subst hprem
    rfl
  have hc0 : Ops.uniqueConflict st uid u premiumPayload = false :=
    uniqueConflict_false_of_own st uid u premiumPayload (Or.inl rfl) (Or.inl rfl)
  have hup : Ops.update_user hash st uid premiumPayload now =
      Except.ok (some { u with updated_at := now },
       { st with users := st.users.map (fun v =>
          if v.id == uid then { u with updated_at := now } else v) }) := by
    rw [update_user_eq_of_get hash st uid premiumPayload now u hu hc0, happ]
  have heq : Api.update_user hash st uid premiumPayload now =
      (Except.ok (toUserResponse { u with updated_at := now }),
       { st with users := st.users.map (fun v =>
          if v.id == uid then { u with updated_at := now } else v) }) := by
    unfold Api.update_user
    rw [hu, hup]
    rfl
  refine ⟨by rw [heq], ?_, ?_⟩
  · rw [heq]
    have hu' : st.users.find? (fun v => v.id == uid) = some u := hu
    have hpu : (u.id == uid) = true := by
      have h3 := List.find?_some hu'
      simpa using h3
    exact find?_map_replace (fun v : User => v.id == uid)
      { u with updated_at := now } hpu st.users u hu'
  · intro v hv
    simp [Api.update_user, hv]

/-- Witness for C6 (amended) at a concrete input: ana is already premium;
promoting her through PUT succeeds and changes only `updated_at`, and a
missing id yields 404. -/
theorem premium_promotion_via_put_witness :
    (Ops.get_user fixtureStore 1 = some anaUser ∧ anaUser.is_premium = true ∧
     Ops.get_user fixtureStore 99 = none) ∧
    ((Api.update_user tagHash fixtureStore 1 premiumPayload 7).fst =
        Except.ok (toUserResponse { anaUser with updated_at := 7 }) ∧
     Ops.get_user (Api.update_user tagHash fixtureStore 1 premiumPayload 7).snd 1 =
        some { anaUser with updated_at := 7 } ∧
     (Api.update_user tagHash fixtureStore 99 premiumPayload 7).fst =
        Except.error ⟨404, "User not found"⟩) := by
  have h := premium_promotion_via_put tagHash fixtureStore 1 7 anaUser rfl rfl
  exact ⟨⟨rfl, rfl, rfl⟩, h.1, h.2.1, h.2.2 99 rfl⟩
